import Mathlib

/-!
Verification of the conversational quiz engine of the MentoraAI backend.

The definitions below are a shallow embedding of the Python source:
  - `backend/services/quiz_agent.py` (quiz session state machine),
  - `backend/routers/whatsapp_router.py` (webhook pipeline and session router),
  - `backend/services/message_processor.py` (intent classifier shell).

Modelling conventions:
  - Python strings are Lean `String`s; `str.strip`, `str.lower`, `str.upper`
    are re-implemented on the underlying character list (`pyStrip`, `pyLower`,
    `pyUpper`) so that they compute by kernel reduction.
  - The per-user entry of the `active_quizzes` dict is an `Option QuizData`
    (`none` = no active session for that user).  All quiz operations of the
    source read and write only the entry of the calling user, so the embedding is
    per user.
  - Calls into external services (the generative model, the zero-shot
    classifier, the RAG store) are oracle parameters of the functions that
    make them; everything after the call is modelled faithfully.
  - Python `float` arithmetic on scores is modelled with `ℚ`; `round` is
    modelled by `pyRound` (round-half-to-even, as in Python 3).
  - Wall-clock timestamps (`start_time`, `timestamp` fields) are dropped:
    no claim depends on them.
-/

namespace Mentora

/-! ## Python string primitives -/

/-- Whitespace characters recognised by Python `str.strip()` (ASCII part). -/
def isPySpace (c : Char) : Bool :=
  c = ' ' || c = '\t' || c = '\n' || c = '\r' || c = '\x0b' || c = '\x0c'

/-- Python `str.strip()`. -/
def pyStrip (s : String) : String :=
  ⟨((s.data.dropWhile isPySpace).reverse.dropWhile isPySpace).reverse⟩

/-- Python `str.lower()` (ASCII case mapping, as used by the source). -/
def pyLower (s : String) : String :=
  ⟨s.data.map Char.toLower⟩

/-- Python `str.upper()` (ASCII case mapping, as used by the source). -/
def pyUpper (s : String) : String :=
  ⟨s.data.map Char.toUpper⟩

/-- Python `pat in s` substring test. -/
def isSubstrIn (pat s : String) : Bool :=
  s.data.tails.any fun t => pat.data.isPrefixOf t

/-- Helper for `pyWords`: accumulate the current word (reversed) while
scanning the character list. -/
def pyWordsAux : List Char → List Char → List String
  | [], acc => if acc = [] then [] else [⟨acc.reverse⟩]
  | c :: cs, acc =>
    if isPySpace c then
      if acc = [] then pyWordsAux cs [] else (⟨acc.reverse⟩ : String) :: pyWordsAux cs []
    else
      pyWordsAux cs (c :: acc)

/-- Python `str.split()` with no argument: split on whitespace runs,
discarding empty pieces. -/
def pyWords (s : String) : List String :=
  pyWordsAux s.data []

/-- Python 3 `round` to an integer: round half to even. -/
def pyRound (q : ℚ) : ℤ :=
  if q - ⌊q⌋ < 1/2 then ⌊q⌋
  else if (1 : ℚ)/2 < q - ⌊q⌋ then ⌊q⌋ + 1
  else if 2 ∣ ⌊q⌋ then ⌊q⌋ else ⌊q⌋ + 1

/-! ## Quiz data model (`quiz_agent.py`)

`QuizAgent.active_quizzes[user_id]` is a dict with keys `questions`,
`current_question`, `score`, `responses`, `topic`, `difficulty`,
`start_time`; the router writes the identical shape.  `start_time` and the
`timestamp` of each response are wall-clock metadata and are omitted. -/

/-- One validated multiple-choice question (`question`/`options`/`answer`
keys of the question dicts). -/
structure Question where
  question : String
  options : List String
  answer : String
deriving DecidableEq

/-- One element of the `responses` list of a session.  The agent appends dicts
with keys `question_idx`, `answer`, `is_correct`; the router appends dicts
with `question_idx`, `user_answer`, `correct_answer`, `is_correct`.  The
optional `correct_answer` field is `none` for agent records (key absent) and
`some _` for router records. -/
structure ResponseRecord where
  question_idx : Nat
  answer : String
  is_correct : Bool
  correct_answer : Option String
deriving DecidableEq

/-- The source has no boolean `skipped` key: `_skip_question` marks a skip
by the sentinel answer string `"SKIPPED"`.  This is the skip marker of a
response record. -/
def ResponseRecord.skippedMark (r : ResponseRecord) : Bool :=
  r.answer = "SKIPPED"

/-- The per-user quiz session state. -/
structure QuizData where
  questions : List Question
  current_question : Nat
  score : Nat
  responses : List ResponseRecord
  topic : String
  difficulty : String
deriving DecidableEq

/-- Placeholder question used only as the (never reached) default of list
indexing. -/
def defaultQ : Question := ⟨"", [], ""⟩

/-- The session dict stored by `start_quiz_session` (and, identically, by
`route_message_to_agent` when it starts a quiz):
`{"questions": qs, "current_question": 0, "score": 0, "responses": [], ...}`. -/
def startQuizState (qs : List Question) (topic difficulty : String) : QuizData :=
  ⟨qs, 0, 0, [], topic, difficulty⟩

/-! ## Quiz agent operations (`quiz_agent.py` lines 300-460) -/

/-- Letters accepted as answers. -/
def ABCD : List String := ["A", "B", "C", "D"]

/-- Reply of `process_answer` when the user has no active session. -/
def msgNoActiveQuiz : String :=
  "You don\x27t have an active quiz. Start a new one with \x27/quiz <topic>\x27"

/-- Reply of `_handle_quiz_response` for input that is neither a control
token nor a single letter A-D. -/
def guidanceMsg : String :=
  "Please respond with A, B, C, or D. You can also type \x27hint\x27, \x27skip\x27, or \x27quit\x27."

/-- Model of `QuizAgent._format_question` (lines 364-379). -/
def format_question (s : Option QuizData) : String :=
  match s with
  | none => "No active quiz found. Start a new quiz with \x27/quiz <topic>\x27"
  | some quiz =>
    if quiz.questions.length ≤ quiz.current_question then
      "No more questions in this quiz."
    else
      let question := quiz.questions.getD quiz.current_question defaultQ
      let options := "\n".intercalate (question.options.enum.map fun p =>
        String.singleton (Char.ofNat (65 + p.1)) ++ ". " ++ p.2)
      "Question " ++ toString (quiz.current_question + 1) ++ " of "
        ++ toString quiz.questions.length ++ ":\n\n" ++ question.question
        ++ "\n\n" ++ options ++ "\n\nYour answer (A/B/C/D):"

/-- Line 434 of the source, `score_pct = round((score / total) * 100) if total > 0 else 0`
(`_finalize_quiz` line 434). -/
def scorePct (score total : Nat) : ℤ :=
  if 0 < total then pyRound ((score : ℚ) / (total : ℚ) * 100) else 0

/-- The performance comment appended by `_finalize_quiz` (lines 444-449). -/
def perfComment (pct : ℤ) : String :=
  if 80 ≤ pct then "Excellent work! You have a strong understanding of this topic. 🏆"
  else if 60 ≤ pct then "Good job! You have a decent grasp of the material. 👍"
  else "Keep practicing! Review the material and try again. 📚"

/-- The report string built by `_finalize_quiz` (lines 437-449, joined with
newlines at line 460). -/
def finalizeFeedback (pre : String) (score total : Nat) : String :=
  let pct := scorePct score total
  "\n".intercalate
    [pre ++ "Quiz complete! 🎉",
     "Your score: " ++ toString score ++ "/" ++ toString total
       ++ " (" ++ toString pct ++ "%)",
     "",
     perfComment pct]

/-- Model of `QuizAgent._finalize_quiz` (lines 423-460).  Pops the session; the
`_update_user_progress` side effect touches only the separate
`user_progress` sink and is not modelled. -/
def finalize_quiz (s : Option QuizData) (pre : String) : String × Option QuizData :=
  match s with
  | none => ("No active quiz to finalize.", none)
  | some quiz => (finalizeFeedback pre quiz.score quiz.questions.length, none)

/-- The state update of `process_answer` (lines 322-336): score bump,
response append, index increment. -/
def answeredQuiz (quiz : QuizData) (ans : String) : QuizData :=
  let question := quiz.questions.getD quiz.current_question defaultQ
  let ic := pyUpper (pyStrip ans) == pyUpper (pyStrip question.answer)
  { quiz with
    score := if ic then quiz.score + 1 else quiz.score
    responses := quiz.responses ++ [⟨quiz.current_question, ans, ic, none⟩]
    current_question := quiz.current_question + 1 }

/-- The feedback line of `process_answer` (line 339). -/
def answerFeedback (ic : Bool) (correct : String) : String :=
  (if ic then "✅ Correct!" else "❌ Incorrect! The correct answer was " ++ correct) ++ "\n\n"

/-- Model of `QuizAgent.process_answer` (lines 300-344). -/
def process_answer (s : Option QuizData) (ans : String) : String × Option QuizData :=
  match s with
  | none => (msgNoActiveQuiz, none)
  | some quiz =>
    if quiz.questions.length ≤ quiz.current_question then
      finalize_quiz (some quiz) ""
    else
      let question := quiz.questions.getD quiz.current_question defaultQ
      let ic := pyUpper (pyStrip ans) == pyUpper (pyStrip question.answer)
      let quiz2 := answeredQuiz quiz ans
      let fb := answerFeedback ic question.answer
      if quiz2.current_question < quiz.questions.length then
        (fb ++ format_question (some quiz2), some quiz2)
      else
        finalize_quiz (some quiz2) fb

/-- The state update of `_skip_question` (lines 407-416): append the
`"SKIPPED"` record and advance.  It never reads the question content. -/
def skippedQuiz (quiz : QuizData) : QuizData :=
  { quiz with
    responses := quiz.responses ++ [⟨quiz.current_question, "SKIPPED", false, none⟩]
    current_question := quiz.current_question + 1 }

/-- Model of `QuizAgent._skip_question` (lines 400-421). -/
def skip_question (s : Option QuizData) : String × Option QuizData :=
  match s with
  | none => ("No active quiz to skip questions in.", none)
  | some quiz =>
    let quiz2 := skippedQuiz quiz
    if quiz2.current_question < quiz.questions.length then
      ("Question skipped.\n\n" ++ format_question (some quiz2), some quiz2)
    else
      finalize_quiz (some quiz2) "Question skipped.\n\n"

/-- Model of `QuizAgent._get_hint` (lines 381-398).  The function performs no state
write; it only returns a string. -/
def get_hint (s : Option QuizData) : String :=
  match s with
  | none => "No active quiz to provide a hint for."
  | some quiz =>
    if quiz.questions.length ≤ quiz.current_question then
      "The quiz is already complete."
    else
      let question := quiz.questions.getD quiz.current_question defaultQ
      "Hint: The correct answer is option " ++ pyUpper question.answer ++ "."
        ++ "\n\n" ++ format_question s

/-- Model of `QuizAgent._handle_quiz_response` (lines 346-362): dispatch on the
stripped, lowercased message. -/
def handle_quiz_response (s : Option QuizData) (message : String) : String × Option QuizData :=
  let m := pyLower (pyStrip message)
  if m = "hint" ∨ m = "/hint" then (get_hint s, s)
  else if m = "skip" ∨ m = "/skip" then skip_question s
  else if m = "quit" ∨ m = "exit" ∨ m = "/quit" ∨ m = "/exit" then
    finalize_quiz s "Quiz cancelled. "
  else if m.length = 1 ∧ pyUpper m ∈ ABCD then
    process_answer s (pyUpper m)
  else
    (guidanceMsg, s)

/-- Fold a list of inbound messages of one user with an active session
through `_handle_quiz_response`, keeping the last reply. -/
def runMessages (s : Option QuizData) (msgs : List String) : String × Option QuizData :=
  msgs.foldl (fun acc m => handle_quiz_response acc.2 m) ("", s)

/-! ## Session router and webhook pipeline (`whatsapp_router.py`) -/

/-- The percentage shown by the completion report of the router
(`handle_quiz_answer` line 152/194): plain float division, no rounding. -/
def routerPct (score total : Nat) : ℚ :=
  if 0 < total then (score : ℚ) / (total : ℚ) * 100 else 0

/-- The completion report of `handle_quiz_answer` (lines 157-162/199-204);
the float formatting `:.1f` is abstracted by `toString` of the rational. -/
def routerReport (score total : Nat) : String :=
  "🎉 Quiz Complete! 🎉\n\nFinal Score: " ++ toString score ++ "/" ++ toString total
    ++ " (" ++ toString (routerPct score total) ++ "%)\n\n"
    ++ "Great job! Would you like to:\n"
    ++ "• Take another quiz: \x27Quiz me on [topic]\x27\n"
    ++ "• Review mistakes: \x27Show my answers\x27\n"
    ++ "• Try a different subject: \x27Quiz on History\x27"

/-- The state update of the router function `handle_quiz_answer` (lines 165-187):
compare against the uppercased stored letter, append a response dict with
`user_answer`/`correct_answer` keys, advance. -/
def routerAnswered (quiz : QuizData) (ans : String) : QuizData :=
  let question := quiz.questions.getD quiz.current_question defaultQ
  let correct := pyUpper question.answer
  let ic := ans == correct
  { quiz with
    score := if ic then quiz.score + 1 else quiz.score
    responses := quiz.responses ++ [⟨quiz.current_question, ans, ic, some correct⟩]
    current_question := quiz.current_question + 1 }

/-- Model of `whatsapp_router.handle_quiz_answer` (lines 137-211). -/
def handle_quiz_answer (s : Option QuizData) (answer0 : String) : String × Option QuizData :=
  match s with
  | none => ("No active quiz found. Start a new quiz: \x27Quiz me on [topic]\x27", none)
  | some quiz =>
    if quiz.questions.length ≤ quiz.current_question then
      (routerReport quiz.score quiz.questions.length, none)
    else
      let ans := pyUpper (pyStrip answer0)
      if ans ∉ ABCD then
        ("Please reply with A, B, C, or D.\n\n" ++ format_question (some quiz), some quiz)
      else
        let quiz2 := routerAnswered quiz ans
        if quiz.questions.length ≤ quiz2.current_question then
          (routerReport quiz2.score quiz.questions.length, none)
        else
          (format_question (some quiz2), some quiz2)

/-- The `intent -> agent` dispatch block of `route_message_to_agent`
(lines 72-135).  It calls the quiz/planner/tutor agents and the default
responses, all of which sit behind generative-model calls, so the whole
block is an oracle parameter of the router model. -/
def Dispatch : Type :=
  String → List (String × String) → String → String × Option QuizData

/-- Model of `whatsapp_router.route_message_to_agent` (lines 65-135): an active quiz
session claims the message before any intent dispatch. -/
def route_message_to_agent (dispatch : Dispatch) (s : Option QuizData)
    (intent : String) (entities : List (String × String)) (text : String) :
    String × Option QuizData :=
  match s with
  | some quiz => handle_quiz_answer (some quiz) text
  | none => dispatch intent entities text

/-- The per-message body of `webhook_handler` (lines 262-274): line 263
calls `message_processor.detect_intent(message_text)` unconditionally, and
only afterwards does line 268 route the message.  The first component
counts the classifier invocations made while handling the message (always
exactly one). -/
def webhook_process (classify : String → String × List (String × String))
    (dispatch : Dispatch) (s : Option QuizData) (text : String) :
    Nat × (String × Option QuizData) :=
  let c := classify text
  (1, route_message_to_agent dispatch s c.1 c.2 text)

/-- Model of `QuizAgent.process_message` (lines 45-67): an active session routes to
`_handle_quiz_response`; otherwise a new session is started from the
question list `gen` produced by `generate_quiz` (an oracle here). -/
def process_message (gen : List Question) (s : Option QuizData) (message : String) :
    String × Option QuizData :=
  match s with
  | some quiz => handle_quiz_response (some quiz) message
  | none =>
    if gen = [] then
      ("I couldn\x27t generate any questions on that topic. Please try another topic or ask me something else!", none)
    else
      let st := startQuizState gen message "medium"
      (format_question (some st), some st)

/-! ## Quiz generation validation (`quiz_agent.generate_quiz`, lines 229-298)

Everything up to and including `json.loads` is a generative-model call plus
parsing of its free text; its outcome is the oracle `LLMParse`.  The
validation loop over the parsed array (lines 234-282) and the fallback
returns are modelled faithfully. -/

/-- One element of the parsed JSON array.  `notDict` is any non-object
entry (line 237).  For an object, each field is `some _` when the key is
present with a usable value; `options = none` also covers a present value
that is not a list (line 246 treats both as a drop).  `question` and
`answer` pass through `str(...)`, hence plain strings. -/
inductive RawEntry where
  | notDict : RawEntry
  | dict : Option String → Option (List String) → Option String → RawEntry

/-- Outcome of the generative call and JSON extraction (lines 156-227). -/
inductive LLMParse where
  /-- The LLM reply started with `"Error:"` (line 171): `ValueError` raised,
  caught by the inner handler at line 284. -/
  | llmError : LLMParse
  /-- No JSON array could be located (line 198): `ValueError`, caught at
  line 284. -/
  | noArrayFound : LLMParse
  /-- The parsed JSON is not a list (line 232): `ValueError`, caught at
  line 284. -/
  | notAnArray : LLMParse
  /-- Case where `json.loads` failed even after the repair pass (line 219). -/
  | unparsable : LLMParse
  /-- A JSON array was parsed. -/
  | arr : List RawEntry → LLMParse

/-- Fallback returned at lines 223-227 when JSON repair fails. -/
def fallbackParseFailure : Question :=
  ⟨"Sorry, I had trouble generating quiz questions. Please try again with a different topic.",
   ["A. OK", "B. Try again", "C. Different topic", "D. Skip"], "A"⟩

/-- Fallback returned at lines 276-280 when no entry survives validation. -/
def fallbackNoValid : Question :=
  ⟨"I couldn\x27t generate valid quiz questions for this topic. Please try a different topic.",
   ["A. OK", "B. Try again", "C. Different topic", "D. Skip"], "A"⟩

/-- Fallback returned by the inner exception handler at lines 286-290 (its
`options` list has a single element). -/
def fallbackInnerError : Question :=
  ⟨"We encountered an issue generating your quiz. Please try again with a different topic.",
   ["OK"], "A"⟩

/-- Validation of one array entry (lines 236-263): require an object with
all three keys, exactly 4 options, and a stripped-uppercased answer in
A-D; the surviving question is cleaned by stripping its strings.  No check
on the question text. -/
def validateEntry : RawEntry → Option Question
  | .notDict => none
  | .dict q opts ans =>
    match q, opts, ans with
    | some qt, some os, some a =>
      if os.length = 4 then
        let answer := pyUpper (pyStrip a)
        if answer ∈ ABCD then some ⟨pyStrip qt, os.map pyStrip, answer⟩ else none
      else none
    | _, _, _ => none

/-- The validation loop (lines 234-271): drop failing entries, append
survivors, break once `num_questions` are collected (line 266). -/
def validateLoop : List RawEntry → List Question → Nat → List Question
  | [], acc, _ => acc
  | e :: rest, acc, num =>
    match validateEntry e with
    | none => validateLoop rest acc num
    | some q =>
      let acc2 := acc ++ [q]
      if num ≤ acc2.length then acc2 else validateLoop rest acc2 num

/-- Model of `generate_quiz` after the generative call: the validated list, or the
appropriate fallback (lines 223-298).  Total by construction: no path
raises to the caller. -/
def generate_quiz (p : LLMParse) (num_questions : Nat) : List Question :=
  match p with
  | .unparsable => [fallbackParseFailure]
  | .llmError => [fallbackInnerError]
  | .noArrayFound => [fallbackInnerError]
  | .notAnArray => [fallbackInnerError]
  | .arr es =>
    let validated := validateLoop es [] num_questions
    if validated = [] then [fallbackNoValid] else validated

/-! ## Intent classification (`message_processor.py`)

`AIIntentClassifier.detect_intent` wraps its whole body (lines 186-256) in
`try/except`.  Inside the `try`, every path that returns calls
`self._extract_entities(message, intent)` first — both the quick
simple-pattern return (lines 204-211) and the main return (line 236).  The
zero-shot model call (line 217) and the simple-pattern regex matches are
oracles (`oracleSimple`, `oracleLabel`, `oracleConf`). -/

/-- Intent labels of `IntentType` (message_processor.py lines 23-33). -/
inductive IntentType where
  | tutor | quiz | plan | track | greeting | thanks | help | feedback | unknown
deriving DecidableEq

/-- Model of `IntentResult` (lines 35-42), with `entities` as an ordered key/value
list. -/
structure IntentResult where
  intent : IntentType
  confidence : ℚ
  entities : List (String × String)
  needs_clarification : Bool
  clarification_prompt : Option String
deriving DecidableEq

/-- Python error text of the `NameError` raised at line 287
(`for word, q_type in question_words.items()` — `question_words` is
defined nowhere in the file). -/
def nameErrorQuestionWords : String := "name \x27question_words\x27 is not defined"

/-- Python error text of the `NameError` raised at line 292
(`elif intent == IntentType.QUIZ` — the parameter is `intent_type`;
`intent` is unbound). -/
def nameErrorIntent : String := "name \x27intent\x27 is not defined"

/-- Model of `AIIntentClassifier._extract_entities` (lines 267-355).  For the
educational intents the subject loop (lines 277-285) runs and then line
287 reads the undefined name `question_words`; for every other intent the
`elif` chain at line 292 reads the undefined name `intent`.  Either way the
call raises `NameError`, modelled as `Except.error`. -/
def extract_entities (message : String) (intent_type : IntentType) :
    Except String (List (String × String)) :=
  if intent_type = .tutor ∨ intent_type = .quiz ∨ intent_type = .plan ∨ intent_type = .track then
    Except.error nameErrorQuestionWords
  else
    Except.error nameErrorIntent

/-- The question words probed at lines 231 and 260. -/
def qWords : List String := ["what", "when", "where", "who", "why", "how"]

/-- Line 231: `any(q_word in message for q_word in [... , "?"])`
(substring containment). -/
def lowConfLooksLikeQuestion (m : String) : Bool :=
  (qWords ++ ["?"]).any fun w => isSubstrIn w m

/-- Line 260: `"?" in message or any(q_word in message.split() for ...)`. -/
def exceptLooksLikeQuestion (m : String) : Bool :=
  isSubstrIn "?" m || qWords.any fun w => (pyWords m).contains w

/-- Python truthiness of `entities.get(key)`: present and non-empty. -/
def entityTruthy (es : List (String × String)) (k : String) : Bool :=
  match es.lookup k with
  | none => false
  | some v => v ≠ ""

/-- Fixed clarification prompt for `Quiz` without a topic (line 244). -/
def quizClarificationPrompt : String :=
  "What topic or chapter would you like to be quizzed on?"

/-- Fixed clarification prompt for `Plan` without a subject (line 247). -/
def planClarificationPrompt : String :=
  "Which subject would you like me to create a study plan for?"

/-- Model of `AIIntentClassifier.detect_intent` (lines 169-265).  `oracleSimple` is
the first simple pattern that matched (lines 204-206), `oracleLabel` and
`oracleConf` the zero-shot classification outcome (lines 225-226). -/
def detect_intent (oracleSimple : Option IntentType) (oracleLabel : IntentType)
    (oracleConf : ℚ) (message : String) : IntentResult :=
  if pyStrip message = "" then
    ⟨.unknown, 0, [], false, none⟩
  else
    let msg := pyLower (pyStrip message)
    let attempt : Except String IntentResult :=
      match oracleSimple with
      | some it =>
        match extract_entities msg it with
        | .error e => .error e
        | .ok es => .ok ⟨it, 95/100, es, false, none⟩
      | none =>
        let pair : IntentType × ℚ :=
          if oracleConf < 3/10 ∧ lowConfLooksLikeQuestion msg = true then
            (.tutor, 8/10)
          else
            (oracleLabel, oracleConf)
        match extract_entities msg pair.1 with
        | .error e => .error e
        | .ok es =>
          let clar : Bool × Option String :=
            if pair.1 = IntentType.quiz ∧ entityTruthy es "topic" = false then
              (true, some quizClarificationPrompt)
            else if pair.1 = IntentType.plan ∧ entityTruthy es "subject" = false then
              (true, some planClarificationPrompt)
            else
              (false, none)
          .ok ⟨pair.1, pair.2, es, clar.1, clar.2⟩
    match attempt with
    | .ok r => r
    | .error e =>
      let isQ := exceptLooksLikeQuestion msg
      ⟨if isQ then .tutor else .unknown, if isQ then 1/2 else 1/10,
       [("error", e)], false, none⟩

/-! ## Reachable session states

Sessions are created by `start_quiz_session` / the router quiz-start
branch (both store the same dict shape, with a non-empty question list),
and mutated only by the message handlers modelled above.  `Reachable`
closes the empty state under all of them. -/

/-- The quiz-session states reachable for one user. -/
inductive Reachable : Option QuizData → Prop where
  | init : Reachable none
  | start (qs : List Question) (topic difficulty : String) (hne : qs ≠ []) :
      Reachable (some (startQuizState qs topic difficulty))
  | msg (s : Option QuizData) (m : String) (h : Reachable s) :
      Reachable (handle_quiz_response s m).2
  | ans (s : Option QuizData) (a : String) (h : Reachable s) :
      Reachable (process_answer s a).2
  | quitStep (s : Option QuizData) (pre : String) (h : Reachable s) :
      Reachable (finalize_quiz s pre).2
  | routerStep (s : Option QuizData) (a : String) (h : Reachable s) :
      Reachable (handle_quiz_answer s a).2

/-- The inductive session invariant: the current index still points at a
question, the score is bounded by it, and it equals the number of recorded
responses. -/
def SessionInv (quiz : QuizData) : Prop :=
  quiz.current_question < quiz.questions.length ∧
  quiz.score ≤ quiz.current_question ∧
  quiz.current_question = quiz.responses.length

/-- Lift `SessionInv` to the optional per-user entry. -/
def OptInv : Option QuizData → Prop
  | none => True
  | some quiz => SessionInv quiz

/-! ## Concrete fixtures for the end-to-end scenarios -/

/-- Fixture: first question, correct answer B. -/
def q1B : Question :=
  ⟨"Which article abolishes untouchability?", ["Article 15", "Article 17", "Article 19", "Article 21"], "B"⟩

/-- Fixture: second question, correct answer A. -/
def q2A : Question :=
  ⟨"Who presides over the Lok Sabha?", ["The Speaker", "The President", "The PM", "The CJI"], "A"⟩

/-- Fixture: third question, correct answer D. -/
def q3D : Question :=
  ⟨"How many schedules did the original Constitution have?", ["10", "12", "6", "8"], "D"⟩

/-- A freshly started 3-question session with correct answers B, A, D. -/
def quiz3 : QuizData := startQuizState [q1B, q2A, q3D] "polity" "medium"

/-- A classifier stub labelling everything `greeting` (for the routing
scenario). -/
def classifyGreeting : String → String × List (String × String) :=
  fun _ => ("greeting", [])

/-- A dispatch stub (never reached in the active-session scenarios). -/
def dispatchStub : Dispatch :=
  fun _ _ _ => ("", none)

/-! ## Character-level lemmas for the case mappings -/

lemma char_toNat_ofNat {n : Nat} (h : n < 0xd800) : (Char.ofNat n).toNat = n := by
  have hv : n.isValidChar := Or.inl h
  simp only [Char.ofNat, hv, dif_pos]
  simp only [Char.ofNatAux, Char.toNat, UInt32.ofNat', UInt32.toNat]
  exact BitVec.toNat_ofNatLt _ _

lemma char_ofNat_toNat (c : Char) : Char.ofNat c.toNat = c := by
  have hv : Nat.isValidChar c.toNat := c.valid
  apply Char.ext
  simp only [Char.ofNat, hv, dif_pos, Char.ofNatAux]
  apply UInt32.eq_of_toBitVec_eq
  simp only [UInt32.ofNat']
  apply BitVec.eq_of_toNat_eq
  simp [BitVec.toNat_ofNatLt, Char.toNat, UInt32.toNat]

lemma char_upper_lower (c : Char) : c.toLower.toUpper = c.toUpper := by
  simp only [Char.toLower, Char.toUpper, Char.toNat]
  by_cases h : 65 ≤ c.val.toNat ∧ c.val.toNat ≤ 90
  · rw [if_pos h]
    have h1 : (Char.ofNat (c.val.toNat + 32)).toNat = c.val.toNat + 32 :=
      char_toNat_ofNat (by omega)
    simp only [Char.toNat] at h1
    rw [if_pos (by omega), if_neg (by omega), h1]
    have h2 : c.val.toNat + 32 - 32 = c.val.toNat := by omega
    rw [h2]
    exact char_ofNat_toNat c
  · rw [if_neg h]

/-- Uppercasing after lowercasing is plain uppercasing (ASCII mappings). -/
lemma pyUpper_pyLower (s : String) : pyUpper (pyLower s) = pyUpper s := by
  simp only [pyUpper, pyLower, List.map_map]
  congr 1
  exact List.map_congr_left fun c _ => char_upper_lower c

/-! ## Session invariant lemmas -/

lemma finalize_snd (s : Option QuizData) (pre : String) :
    (finalize_quiz s pre).2 = none := by
  cases s <;> rfl

lemma answeredQuiz_questions (quiz : QuizData) (a : String) :
    (answeredQuiz quiz a).questions = quiz.questions := rfl

lemma answeredQuiz_current (quiz : QuizData) (a : String) :
    (answeredQuiz quiz a).current_question = quiz.current_question + 1 := rfl

lemma answeredQuiz_score_le (quiz : QuizData) (a : String) :
    (answeredQuiz quiz a).score ≤ quiz.score + 1 := by
  dsimp only [answeredQuiz]
  split <;> omega

lemma answeredQuiz_responses_length (quiz : QuizData) (a : String) :
    (answeredQuiz quiz a).responses.length = quiz.responses.length + 1 := by
  simp [answeredQuiz]

lemma skippedQuiz_questions (quiz : QuizData) :
    (skippedQuiz quiz).questions = quiz.questions := rfl

lemma skippedQuiz_current (quiz : QuizData) :
    (skippedQuiz quiz).current_question = quiz.current_question + 1 := rfl

lemma skippedQuiz_score (quiz : QuizData) :
    (skippedQuiz quiz).score = quiz.score := rfl

lemma skippedQuiz_responses (quiz : QuizData) :
    (skippedQuiz quiz).responses
      = quiz.responses ++ [⟨quiz.current_question, "SKIPPED", false, none⟩] := rfl

lemma routerAnswered_questions (quiz : QuizData) (a : String) :
    (routerAnswered quiz a).questions = quiz.questions := rfl

lemma routerAnswered_current (quiz : QuizData) (a : String) :
    (routerAnswered quiz a).current_question = quiz.current_question + 1 := rfl

lemma routerAnswered_score_le (quiz : QuizData) (a : String) :
    (routerAnswered quiz a).score ≤ quiz.score + 1 := by
  dsimp only [routerAnswered]
  split <;> omega

lemma routerAnswered_responses_length (quiz : QuizData) (a : String) :
    (routerAnswered quiz a).responses.length = quiz.responses.length + 1 := by
  simp [routerAnswered]

lemma sessionInv_answered (quiz : QuizData) (a : String)
    (h : SessionInv quiz)
    (hlt : (answeredQuiz quiz a).current_question < quiz.questions.length) :
    SessionInv (answeredQuiz quiz a) := by
  obtain ⟨h1, h2, h3⟩ := h
  refine ⟨?_, ?_, ?_⟩
  · rw [answeredQuiz_questions]
    exact hlt
  · have := answeredQuiz_score_le quiz a
    rw [answeredQuiz_current]
    omega
  · rw [answeredQuiz_current, answeredQuiz_responses_length]
    omega

lemma inv_process_answer (s : Option QuizData) (a : String) (h : OptInv s) :
    OptInv (process_answer s a).2 := by
  cases s with
  | none => exact trivial
  | some quiz =>
    simp only [process_answer]
    split
    · rw [finalize_snd]; exact trivial
    · split
      · exact sessionInv_answered quiz a h (by assumption)
      · rw [finalize_snd]; exact trivial

lemma inv_skip (s : Option QuizData) (h : OptInv s) :
    OptInv (skip_question s).2 := by
  cases s with
  | none => exact trivial
  | some quiz =>
    obtain ⟨h1, h2, h3⟩ := h
    simp only [skip_question]
    split
    · refine ⟨?_, ?_, ?_⟩
      · rw [skippedQuiz_questions]
        assumption
      · rw [skippedQuiz_current, skippedQuiz_score]
        omega
      · rw [skippedQuiz_current, skippedQuiz_responses]
        simp [h3]
    · rw [finalize_snd]; exact trivial

lemma inv_router (s : Option QuizData) (a : String) (h : OptInv s) :
    OptInv (handle_quiz_answer s a).2 := by
  cases s with
  | none => exact trivial
  | some quiz =>
    obtain ⟨h1, h2, h3⟩ := h
    simp only [handle_quiz_answer]
    split
    · exact trivial
    · split
      · exact ⟨h1, h2, h3⟩
      · split
        · exact trivial
        · rename_i hc
          refine ⟨?_, ?_, ?_⟩
          · rw [routerAnswered_questions, routerAnswered_current]
            rw [routerAnswered_current] at hc
            omega
          · have := routerAnswered_score_le quiz (pyUpper (pyStrip a))
            rw [routerAnswered_current]
            omega
          · rw [routerAnswered_current, routerAnswered_responses_length]
            omega

lemma inv_handle (s : Option QuizData) (m : String) (h : OptInv s) :
    OptInv (handle_quiz_response s m).2 := by
  simp only [handle_quiz_response]
  split_ifs with h1 h2 h3 h4
  · exact h
  · exact inv_skip s h
  · rw [finalize_snd]; exact trivial
  · exact inv_process_answer s _ h
  · exact h

lemma reachable_inv (s : Option QuizData) (h : Reachable s) : OptInv s := by
  induction h with
  | init => exact trivial
  | start qs topic difficulty hne =>
    exact ⟨List.length_pos.mpr hne, Nat.le_refl 0, rfl⟩
  | msg s m _ ih => exact inv_handle s m ih
  | ans s a _ ih => exact inv_process_answer s a ih
  | quitStep s pre _ _ => rw [finalize_snd]; exact trivial
  | routerStep s a _ ih => exact inv_router s a ih

/-! ## Characterization lemmas for the step functions -/

lemma process_answer_snd_active (quiz : QuizData) (a : String)
    (hlt : quiz.current_question < quiz.questions.length) :
    (process_answer (some quiz) a).2
      = if (answeredQuiz quiz a).current_question < quiz.questions.length
        then some (answeredQuiz quiz a) else none := by
  simp only [process_answer]
  rw [if_neg (by omega)]
  split_ifs
  · rfl
  · rw [finalize_snd]

lemma skip_question_snd (quiz : QuizData) :
    (skip_question (some quiz)).2
      = if (skippedQuiz quiz).current_question < quiz.questions.length
        then some (skippedQuiz quiz) else none := by
  simp only [skip_question]
  split_ifs
  · rfl
  · rw [finalize_snd]

lemma handle_hint_eq (s : Option QuizData) (m : String)
    (hm : pyLower (pyStrip m) = "hint" ∨ pyLower (pyStrip m) = "/hint") :
    handle_quiz_response s m = (get_hint s, s) := by
  simp only [handle_quiz_response]
  rw [if_pos hm]

/-! ## Validation-loop lemmas (`generate_quiz`) -/

lemma validateEntry_shape (e : RawEntry) (q : Question)
    (h : validateEntry e = some q) :
    q.options.length = 4 ∧ q.answer ∈ ABCD := by
  cases e with
  | notDict => simp [validateEntry] at h
  | dict qo oo ao =>
    match qo, oo, ao with
    | none, _, _ => simp [validateEntry] at h
    | some _, none, _ => simp [validateEntry] at h
    | some _, some _, none => simp [validateEntry] at h
    | some qt, some os, some a =>
      simp only [validateEntry] at h
      split_ifs at h with h4 hans
      obtain rfl := Option.some.inj h
      exact ⟨by simpa using h4, hans⟩

lemma validateLoop_mem (es : List RawEntry) (acc : List Question) (num : Nat)
    (q : Question) (h : q ∈ validateLoop es acc num) :
    q ∈ acc ∨ (q.options.length = 4 ∧ q.answer ∈ ABCD) := by
  induction es generalizing acc with
  | nil => exact Or.inl h
  | cons e rest ih =>
    simp only [validateLoop] at h
    split at h
    · exact ih acc h
    next q0 he =>
      split_ifs at h with hb
      · rcases List.mem_append.mp h with hin | hin
        · exact Or.inl hin
        · right
          rw [List.mem_singleton.mp hin]
          exact validateEntry_shape e q0 he
      · rcases ih (acc ++ [q0]) h with hin | hp
        · rcases List.mem_append.mp hin with hin2 | hin2
          · exact Or.inl hin2
          · right
            rw [List.mem_singleton.mp hin2]
            exact validateEntry_shape e q0 he
        · exact Or.inr hp

lemma validateLoop_length (es : List RawEntry) (acc : List Question) (num : Nat)
    (h : acc.length < num) : (validateLoop es acc num).length ≤ num := by
  induction es generalizing acc with
  | nil => exact Nat.le_of_lt h
  | cons e rest ih =>
    simp only [validateLoop]
    split
    · exact ih acc h
    next q0 he =>
      split_ifs with hb
      · simp only [List.length_append, List.length_singleton]
        omega
      · refine ih (acc ++ [q0]) ?_
        simp only [List.length_append, List.length_singleton] at hb ⊢
        omega

/-! ## Intent-classifier lemmas -/

lemma extract_entities_errors (message : String) (it : IntentType) :
    ∃ e, extract_entities message it = Except.error e := by
  unfold extract_entities
  split_ifs
  · exact ⟨nameErrorQuestionWords, rfl⟩
  · exact ⟨nameErrorIntent, rfl⟩

lemma detect_intent_always_excepts (oS : Option IntentType) (oL : IntentType)
    (oC : ℚ) (message : String) (hne : pyStrip message ≠ "") :
    ∃ e, detect_intent oS oL oC message
      = ⟨if exceptLooksLikeQuestion (pyLower (pyStrip message)) then .tutor else .unknown,
         if exceptLooksLikeQuestion (pyLower (pyStrip message)) then 1/2 else 1/10,
         [("error", e)], false, none⟩ := by
  cases oS with
  | some it =>
    simp only [detect_intent, extract_entities]
    rw [if_neg hne]
    split_ifs <;> exact ⟨_, rfl⟩
  | none =>
    simp only [detect_intent, extract_entities]
    rw [if_neg hne]
    split_ifs <;> exact ⟨_, rfl⟩

/-! ## Claim theorems -/

/-- Claim C1: every quiz session reachable by any sequence of start,
answer, hint and skip operations satisfies `currentIndex ≤ N` and
`score ≤ currentIndex` (both are `Nat`, so `0 ≤ _` is inherent); any
answer, skip or routed message step from a reachable state preserves the
bounds, and a hint message leaves the session state unchanged. -/
theorem quiz_session_bounds (s : Option QuizData) (h : Reachable s) :
    (∀ quiz, s = some quiz →
       quiz.current_question ≤ quiz.questions.length ∧
       quiz.score ≤ quiz.current_question) ∧
    (∀ m quiz2, (handle_quiz_response s m).2 = some quiz2 →
       quiz2.current_question ≤ quiz2.questions.length ∧
       quiz2.score ≤ quiz2.current_question) ∧
    (∀ a quiz2, (process_answer s a).2 = some quiz2 →
       quiz2.current_question ≤ quiz2.questions.length ∧
       quiz2.score ≤ quiz2.current_question) ∧
    (∀ quiz2, (skip_question s).2 = some quiz2 →
       quiz2.current_question ≤ quiz2.questions.length ∧
       quiz2.score ≤ quiz2.current_question) ∧
    (∀ m, pyLower (pyStrip m) = "hint" ∨ pyLower (pyStrip m) = "/hint" →
       (handle_quiz_response s m).2 = s) := by
  have hinv := reachable_inv s h
  refine ⟨?_, ?_, ?_, ?_, ?_⟩
  · rintro quiz rfl
    obtain ⟨h1, h2, -⟩ := hinv
    exact ⟨Nat.le_of_lt h1, h2⟩
  · intro m quiz2 he
    have h2 := inv_handle s m hinv
    rw [he] at h2
    obtain ⟨hb1, hb2, -⟩ := h2
    exact ⟨Nat.le_of_lt hb1, hb2⟩
  · intro a quiz2 he
    have h2 := inv_process_answer s a hinv
    rw [he] at h2
    obtain ⟨hb1, hb2, -⟩ := h2
    exact ⟨Nat.le_of_lt hb1, hb2⟩
  · intro quiz2 he
    have h2 := inv_skip s hinv
    rw [he] at h2
    obtain ⟨hb1, hb2, -⟩ := h2
    exact ⟨Nat.le_of_lt hb1, hb2⟩
  · intro m hm
    rw [handle_hint_eq s m hm]

/-- Witness for C1 at a concrete freshly started session. -/
theorem quiz_session_bounds_check :
    quiz3.current_question ≤ quiz3.questions.length ∧
    quiz3.score ≤ quiz3.current_question :=
  (quiz_session_bounds (some quiz3)
    (Reachable.start [q1B, q2A, q3D] "polity" "medium" (by decide))).1 quiz3 rfl

/-- Claim C10 (implicit): for every reachable session `currentIndex` equals
the length of `responses`; a session starts with both zero, each answer and
each skip appends exactly one record and increments the index by one in the
same operation, and hint changes neither. -/
theorem index_matches_responses (s : Option QuizData) (h : Reachable s) :
    (∀ quiz, s = some quiz → quiz.current_question = quiz.responses.length) ∧
    (∀ qs topic difficulty,
       (startQuizState qs topic difficulty).current_question = 0 ∧
       (startQuizState qs topic difficulty).responses = []) ∧
    (∀ quiz a, s = some quiz → quiz.current_question < quiz.questions.length →
       (process_answer s a).2
         = (if (answeredQuiz quiz a).current_question < quiz.questions.length
            then some (answeredQuiz quiz a) else none) ∧
       (answeredQuiz quiz a).current_question = quiz.current_question + 1 ∧
       (answeredQuiz quiz a).responses.length = quiz.responses.length + 1) ∧
    (∀ quiz, s = some quiz →
       (skip_question s).2
         = (if (skippedQuiz quiz).current_question < quiz.questions.length
            then some (skippedQuiz quiz) else none) ∧
       (skippedQuiz quiz).current_question = quiz.current_question + 1 ∧
       (skippedQuiz quiz).responses.length = quiz.responses.length + 1) ∧
    (∀ m, pyLower (pyStrip m) = "hint" ∨ pyLower (pyStrip m) = "/hint" →
       (handle_quiz_response s m).2 = s) := by
  have hinv := reachable_inv s h
  refine ⟨?_, ?_, ?_, ?_, ?_⟩
  · rintro quiz rfl
    exact hinv.2.2
  · intro qs topic difficulty
    exact ⟨rfl, rfl⟩
  · rintro quiz a rfl hlt
    refine ⟨process_answer_snd_active quiz a hlt, answeredQuiz_current quiz a, ?_⟩
    exact answeredQuiz_responses_length quiz a
  · rintro quiz rfl
    refine ⟨skip_question_snd quiz, skippedQuiz_current quiz, ?_⟩
    rw [skippedQuiz_responses]
    simp
  · intro m hm
    rw [handle_hint_eq s m hm]

/-- Witness for C10 at a concrete freshly started session. -/
theorem index_matches_responses_check :
    quiz3.current_question = quiz3.responses.length :=
  (index_matches_responses (some quiz3)
    (Reachable.start [q1B, q2A, q3D] "polity" "medium" (by decide))).1 quiz3 rfl

/-- Claim C3: with an active session, any input whose trimmed uppercase
form is not one of A, B, C, D and which is not a recognised control token
is rejected without touching the session: the handler returns the fixed
guidance reply together with the unchanged state, so no turn is consumed
and the same question stays current. -/
theorem invalid_input_rejected (quiz : QuizData) (msg : String)
    (hcmd : pyLower (pyStrip msg) ∉
      (["hint", "/hint", "skip", "/skip", "quit", "exit", "/quit", "/exit"] : List String))
    (hletter : pyUpper (pyStrip msg) ∉ ABCD) :
    handle_quiz_response (some quiz) msg = (guidanceMsg, some quiz) := by
  have hm1 : ¬ (pyLower (pyStrip msg) = "hint" ∨ pyLower (pyStrip msg) = "/hint") := by
    rintro (h | h) <;> exact hcmd (by simp [h])
  have hm2 : ¬ (pyLower (pyStrip msg) = "skip" ∨ pyLower (pyStrip msg) = "/skip") := by
    rintro (h | h) <;> exact hcmd (by simp [h])
  have hm3 : ¬ (pyLower (pyStrip msg) = "quit" ∨ pyLower (pyStrip msg) = "exit" ∨
      pyLower (pyStrip msg) = "/quit" ∨ pyLower (pyStrip msg) = "/exit") := by
    rintro (h | h | h | h) <;> exact hcmd (by simp [h])
  have hm4 : ¬ ((pyLower (pyStrip msg)).length = 1 ∧
      pyUpper (pyLower (pyStrip msg)) ∈ ABCD) := by
    rintro ⟨-, hmem⟩
    rw [pyUpper_pyLower] at hmem
    exact hletter hmem
  simp only [handle_quiz_response]
  rw [if_neg hm1, if_neg hm2, if_neg hm3, if_neg hm4]

/-- Witness for C3: the letter E is rejected and the session untouched. -/
theorem invalid_input_rejected_check :
    handle_quiz_response (some quiz3) "E" = (guidanceMsg, some quiz3) :=
  invalid_input_rejected quiz3 "E" (by decide) (by decide)

/-- Claim C4: finalizing computes the percentage against the configured
total `N = len(questions)` (so skipped questions count as wrong, not
excluded) and removes the session; the 3-question quiz with correct
answers B, A, D and inputs B, A, D ends with score 3, percentage 100 and
the session removed by the third answer. -/
theorem finalize_against_total :
    (∀ quiz pre, finalize_quiz (some quiz) pre
        = (finalizeFeedback pre quiz.score quiz.questions.length, none)) ∧
    scorePct 3 3 = 100 ∧
    (runMessages (some quiz3) ["B", "A"]).2
      = some { quiz3 with
                current_question := 2
                score := 2
                responses := [⟨0, "B", true, none⟩, ⟨1, "A", true, none⟩] } ∧
    (runMessages (some quiz3) ["B", "A", "D"]).2 = none ∧
    (runMessages (some quiz3) ["B", "A", "D"]).1
      = finalizeFeedback (answerFeedback true "D") 3 3 := by
  refine ⟨fun quiz pre => rfl, ?_, by decide, by decide, rfl⟩
  norm_num [scorePct, pyRound]

/-- Claim C5: skip appends exactly one response record, marked not correct
and carrying the skip marker, without ever reading the stored letters, and
advances the index by one exactly as an answer does; the B, skip, D run
ends with score 2 and the skipped entry marked. -/
theorem skip_counts_as_wrong :
    (∀ quiz,
       (skippedQuiz quiz).responses
         = quiz.responses ++ [⟨quiz.current_question, "SKIPPED", false, none⟩] ∧
       (skippedQuiz quiz).current_question = quiz.current_question + 1 ∧
       (skippedQuiz quiz).score = quiz.score ∧
       ResponseRecord.skippedMark ⟨quiz.current_question, "SKIPPED", false, none⟩ = true ∧
       (⟨quiz.current_question, "SKIPPED", false, none⟩ : ResponseRecord).is_correct = false ∧
       (skip_question (some quiz)).2
         = if (skippedQuiz quiz).current_question < quiz.questions.length
           then some (skippedQuiz quiz) else none) ∧
    (∀ quiz a, (answeredQuiz quiz a).current_question = quiz.current_question + 1) ∧
    (runMessages (some quiz3) ["B", "skip"]).2
      = some { quiz3 with
                current_question := 2
                score := 1
                responses := [⟨0, "B", true, none⟩, ⟨1, "SKIPPED", false, none⟩] } ∧
    (runMessages (some quiz3) ["B", "skip", "D"]).1
      = finalizeFeedback (answerFeedback true "D") 2 3 := by
  refine ⟨?_, fun quiz a => rfl, by decide, rfl⟩
  intro quiz
  exact ⟨rfl, rfl, rfl, rfl, rfl, skip_question_snd quiz⟩

/-- Claim C6: hint is read-only: a hint message returns the state
unchanged (mutating neither `currentIndex` nor `responses` nor `score`),
its reply reveals the stored correct letter and re-displays the current
question, and a hint followed by an answer advances the index by exactly
one — from the answer alone. -/
theorem hint_read_only (quiz : QuizData)
    (h : quiz.current_question < quiz.questions.length) :
    (∀ m, pyLower (pyStrip m) = "hint" ∨ pyLower (pyStrip m) = "/hint" →
       handle_quiz_response (some quiz) m = (get_hint (some quiz), some quiz)) ∧
    get_hint (some quiz)
      = "Hint: The correct answer is option "
          ++ pyUpper (quiz.questions.getD quiz.current_question defaultQ).answer ++ "."
          ++ "\n\n" ++ format_question (some quiz) ∧
    (∀ m a, pyLower (pyStrip m) = "hint" ∨ pyLower (pyStrip m) = "/hint" →
       (process_answer (handle_quiz_response (some quiz) m).2 a).2
         = if (answeredQuiz quiz a).current_question < quiz.questions.length
           then some (answeredQuiz quiz a) else none) := by
  refine ⟨?_, ?_, ?_⟩
  · intro m hm
    exact handle_hint_eq (some quiz) m hm
  · simp only [get_hint]
    rw [if_neg (by omega)]
  · intro m a hm
    rw [handle_hint_eq (some quiz) m hm]
    exact process_answer_snd_active quiz a h

/-- Witness for C6: hint on the fresh 3-question session, then answering b
advances the index to 1. -/
theorem hint_read_only_check :
    (process_answer (handle_quiz_response (some quiz3) "hint").2 "b").2
      = if (answeredQuiz quiz3 "b").current_question < quiz3.questions.length
        then some (answeredQuiz quiz3 "b") else none :=
  (hint_read_only quiz3 (by decide)).2.2 "hint" "b" (Or.inl (by decide))

/-- Claim C7: the first finalize of an active session emits the report and
removes the session; every subsequent finalize or any other quiz operation
for that user gets the fixed "no active quiz" reply — never an error and
never a second report. -/
theorem finalize_idempotent_effect :
    (∀ quiz pre, finalize_quiz (some quiz) pre
        = (finalizeFeedback pre quiz.score quiz.questions.length, none)) ∧
    (∀ quiz pre pre2, finalize_quiz ((finalize_quiz (some quiz) pre).2) pre2
        = ("No active quiz to finalize.", none)) ∧
    (∀ pre, finalize_quiz none pre = ("No active quiz to finalize.", none)) ∧
    (∀ a, process_answer none a = (msgNoActiveQuiz, none)) ∧
    skip_question none = ("No active quiz to skip questions in.", none) ∧
    get_hint none = "No active quiz to provide a hint for." := by
  exact ⟨fun quiz pre => rfl, fun quiz pre pre2 => rfl, fun pre => rfl,
    fun a => rfl, rfl, rfl⟩

/-- Claim C2 counterexample: with an active session and the inbound message
"A", the webhook body still invokes the intent classifier (exactly once,
at line 263, before routing) — the claim that the classifier is not
invoked at all is false — while the message is indeed consumed as a quiz
answer in spite of the `greeting` label. -/
theorem classifier_invoked_despite_session :
    (webhook_process classifyGreeting dispatchStub (some quiz3) "A").1 = 1 ∧
    (webhook_process classifyGreeting dispatchStub (some quiz3) "A").2.2
      = some (routerAnswered quiz3 "A") := by
  exact ⟨rfl, by decide⟩

/-- Claim C2 (amended): with an active quiz session every inbound message —
in particular the single letter "A" — is routed to the quiz-answer handler
regardless of the classified intent: the routing result is independent of
the intent, the entities and the dispatch table, and a letter message is
consumed as an answer.  The intent classifier, however, IS invoked exactly
once for every webhook message (its result is simply ignored while a
session is active). -/
theorem active_session_routing (dispatch dispatch2 : Dispatch) (quiz : QuizData)
    (i1 i2 : String) (e1 e2 : List (String × String)) (text : String)
    (hq : quiz.current_question < quiz.questions.length)
    (hl : pyUpper (pyStrip text) ∈ ABCD) :
    route_message_to_agent dispatch (some quiz) i1 e1 text
      = route_message_to_agent dispatch2 (some quiz) i2 e2 text ∧
    route_message_to_agent dispatch (some quiz) i1 e1 text
      = handle_quiz_answer (some quiz) text ∧
    (handle_quiz_answer (some quiz) text).2
      = (if quiz.questions.length
            ≤ (routerAnswered quiz (pyUpper (pyStrip text))).current_question
         then none
         else some (routerAnswered quiz (pyUpper (pyStrip text)))) ∧
    (∀ classify s2 t2, (webhook_process classify dispatch s2 t2).1 = 1) := by
  refine ⟨rfl, rfl, ?_, fun classify s2 t2 => rfl⟩
  simp only [handle_quiz_answer]
  rw [if_neg (by omega), if_neg (by simpa using hl)]
  split_ifs with hb
  · rfl
  · rfl

/-- Witness for C2 (amended) at the concrete fresh session and message "A". -/
theorem active_session_routing_check :
    route_message_to_agent dispatchStub (some quiz3) "greeting" [] "A"
      = handle_quiz_answer (some quiz3) "A" :=
  (active_session_routing dispatchStub dispatchStub quiz3 "greeting" "quiz"
    [] [] "A" (by decide) (by decide)).2.1

/-- Claim C8 counterexample: a parsed entry whose question text is empty
survives validation, so `generate_quiz` can return a question with empty
text; and on the not-an-array error path it returns the inner-error
fallback whose option list has length 1, not 4. -/
theorem generate_quiz_gaps :
    generate_quiz
        (.arr [.dict (some "") (some ["A. 1", "B. 2", "C. 3", "D. 4"]) (some "a")]) 5
      = [⟨"", ["A. 1", "B. 2", "C. 3", "D. 4"], "A"⟩] ∧
    (⟨"", ["A. 1", "B. 2", "C. 3", "D. 4"], "A"⟩ : Question).question = "" ∧
    generate_quiz .notAnArray 5 = [fallbackInnerError] ∧
    fallbackInnerError.options.length = 1 := by decide

/-- Claim C8 (amended): `generate_quiz` is total over every generative
outcome (malformed entries are dropped silently, nothing is raised to the
caller); for a requested count of at least 1 it returns a non-empty list of
at most that many questions, each with a correct letter in A-D; every
question produced from a parsed array — including the fallback used when
no valid question remains — has exactly 4 options.  (Question text is not
checked for emptiness, and the error-path fallback has a single option.) -/
theorem generate_quiz_amended (num : Nat) (h1 : 1 ≤ num) :
    (∀ p, (generate_quiz p num).length ≤ num ∧
       generate_quiz p num ≠ [] ∧
       ∀ q ∈ generate_quiz p num, q.answer ∈ ABCD) ∧
    (∀ es q, q ∈ generate_quiz (.arr es) num → q.options.length = 4) := by
  constructor
  · intro p
    cases p with
    | llmError =>
      refine ⟨by simpa [generate_quiz] using h1, by simp [generate_quiz], ?_⟩
      simp [generate_quiz, fallbackInnerError, ABCD]
    | noArrayFound =>
      refine ⟨by simpa [generate_quiz] using h1, by simp [generate_quiz], ?_⟩
      simp [generate_quiz, fallbackInnerError, ABCD]
    | notAnArray =>
      refine ⟨by simpa [generate_quiz] using h1, by simp [generate_quiz], ?_⟩
      simp [generate_quiz, fallbackInnerError, ABCD]
    | unparsable =>
      refine ⟨by simpa [generate_quiz] using h1, by simp [generate_quiz], ?_⟩
      simp [generate_quiz, fallbackParseFailure, ABCD]
    | arr es =>
      simp only [generate_quiz]
      split_ifs with hv
      · refine ⟨by simpa using h1, by simp, ?_⟩
        simp [fallbackNoValid, ABCD]
      · refine ⟨validateLoop_length es [] num (by simpa using h1), hv, ?_⟩
        intro q hq
        rcases validateLoop_mem es [] num q hq with hin | hp
        · exact absurd hin (List.not_mem_nil q)
        · exact hp.2
  · intro es q hq
    simp only [generate_quiz] at hq
    split_ifs at hq with hv
    · rw [List.mem_singleton.mp hq]
      rfl
    · rcases validateLoop_mem es [] num q hq with hin | hp
      · exact absurd hin (List.not_mem_nil q)
      · exact hp.1

/-- Witness for C8 (amended) at a concrete error outcome and count 5. -/
theorem generate_quiz_amended_check :
    (generate_quiz .unparsable 5).length ≤ 5 :=
  ((generate_quiz_amended 5 (by norm_num)).1 .unparsable).1

/-- Claim C9 (code bug): `_extract_entities` reads names that are defined
nowhere (`question_words` at line 287, `intent` at line 292), so it raises
`NameError` on every call; `detect_intent` therefore always lands in its
exception handler.  Whatever the simple-pattern and zero-shot oracles
return, classifying "quiz me" yields `needs_clarification = false` with no
prompt and intent `unknown`, and classifying "quiz me on Polity" yields
`needs_clarification = false` with no `primary_subject` entity — the
specified clarification policy is unreachable. -/
theorem clarification_policy_unreachable (oracleSimple : Option IntentType)
    (oracleLabel : IntentType) (oracleConf : ℚ) :
    (detect_intent oracleSimple oracleLabel oracleConf "quiz me").needs_clarification
      = false ∧
    (detect_intent oracleSimple oracleLabel oracleConf "quiz me").clarification_prompt
      = none ∧
    (detect_intent oracleSimple oracleLabel oracleConf "quiz me").intent
      = IntentType.unknown ∧
    (detect_intent oracleSimple oracleLabel oracleConf "quiz me on Polity").needs_clarification
      = false ∧
    List.lookup "primary_subject"
      (detect_intent oracleSimple oracleLabel oracleConf "quiz me on Polity").entities
      = none := by
  obtain ⟨e1, h1⟩ := detect_intent_always_excepts oracleSimple oracleLabel oracleConf
    "quiz me" (by decide)
  obtain ⟨e2, h2⟩ := detect_intent_always_excepts oracleSimple oracleLabel oracleConf
    "quiz me on Polity" (by decide)
  rw [h1, h2]
  refine ⟨rfl, rfl, ?_, rfl, rfl⟩
  have hq : exceptLooksLikeQuestion (pyLower (pyStrip "quiz me")) = false := by decide
  rw [hq]
  rfl

end Mentora
